import Mathlib

/-
Shallow embedding of `src/EquityComparision.py`, a Streamlit dashboard that
compares stock tickers.  The computational kernel embedded here consists of

  * `safe_scalar`       (lines 35-41): scalar extraction from array-like values,
  * `compute_returns`   (lines 44-57): percentage return over a closing series,
  * `format_mcap`       (lines 68-79): market-capitalisation display string,
  * the per-ticker chart loop (lines 98-119): cleaning, optional rebasing to
    100 and per-ticker error isolation.

Modelling conventions:
  * A cell of a pandas series is a `PVal`: a rational number (`num`), a
    missing value (`nan`, modelling `np.nan`/`None`), or a non-numeric
    contaminant such as a string (`nonNum`), which `pd.notna` treats as
    present but which raises `TypeError` in arithmetic and in `np.isclose`.
  * Machine floats are idealised as rationals; the float literals `1e12`,
    `1e9`, `1e6` of the source are exactly representable doubles and appear
    here as the corresponding integer rationals.
  * A fetched data frame is a `Frame`: `none` models the column-less empty
    `pd.DataFrame()` produced by a failed fetch (`df["Close"]` raises
    `KeyError` on it), `some col` models a frame whose `Close` column holds
    the cells `col` (the frame is empty iff `col` is empty, since a frame
    returned by `yfinance.history` with rows always has a `Close` column).
  * Python exceptions are modelled with `Except Unit`: `.error ()` is an
    exception propagating out of the modelled function, `.ok` a normal
    return.  Inside the chart loop exceptions are caught per ticker, so the
    per-ticker outcome is the three-valued `ChartOutcome` instead.
-/

namespace EquityComparision

/-- One cell of a pandas series: a number, a missing value (`np.nan`/`None`),
or a non-numeric contaminant (e.g. a string). -/
inductive PVal where
  | num (q : ℚ)
  | nan
  | nonNum
  deriving DecidableEq

/-- `pd.notna` on one cell: `False` exactly on missing values; note that a
non-numeric value such as a string counts as present. -/
def pd_notna : PVal → Bool
  | .nan => false
  | _ => true

/-- `Series.dropna` (lines 47, 102): keep the cells on which `pd.notna`
holds.  Non-numeric cells are kept. -/
def dropna (l : List PVal) : List PVal :=
  l.filter pd_notna

/-- `np.isclose(a, b)` with the default tolerances `rtol=1e-5`,
`atol=1e-8`: `|a - b| <= atol + rtol * |b|`. -/
def np_isclose (a b : ℚ) : Bool :=
  |a - b| ≤ 1 / 100000000 + (1 / 100000) * |b|

/-- An argument to `safe_scalar` (lines 35-41): either a plain scalar or an
array-like value (`pd.Series`, `np.ndarray`, `list`). -/
inductive PyBox where
  | scalar (v : PVal)
  | arr (l : List PVal)
  deriving DecidableEq

/-- `safe_scalar` (lines 35-41): on an array-like value return its first
element, or `np.nan` when it is empty; return a plain scalar unchanged. -/
def safe_scalar : PyBox → PVal
  | .scalar v => v
  | .arr l => l.headD .nan

/-- A fetched data frame, viewed through its `Close` column: `none` is the
column-less empty frame returned by a failed `load_data`, `some col` a frame
whose `Close` column is `col`. -/
abbrev Frame := Option (List PVal)

/-- `df.empty` (line 45): true for the column-less failure frame and for a
frame with no rows. -/
def frame_empty : Frame → Bool
  | none => true
  | some col => col.isEmpty

/-- `compute_returns` (lines 44-57).  Guard on `df.empty`; drop missing
cells from the `Close` column; extract the first and last remaining cells
with `safe_scalar` applied to the one-element slices `iloc[[0]]` and
`iloc[[-1]]`; if the first cell is present (`pd.notna`) and not within
`np.isclose` tolerance of zero, return `(end / start - 1) * 100.0` with the
division guarded by `try/except`, else return `np.nan`.  The `np.isclose`
test itself sits outside the `try` block, so a non-numeric first cell makes
it raise `TypeError`, modelled by `.error ()`; a non-numeric last cell makes
the division inside the `try` raise, which is caught and mapped to
`np.nan`. -/
def compute_returns (df : Frame) : Except Unit (Option ℚ) :=
  match df with
  | none => .ok none
  | some col =>
    if col.isEmpty then .ok none
    else
      let series := dropna col
      if series.isEmpty then .ok none
      else
        let start_val := safe_scalar (.arr (series.take 1))
        let end_val := safe_scalar (.arr (series.drop (series.length - 1)))
        match start_val with
        | .nan => .ok none
        | .nonNum => .error ()
        | .num s =>
          if np_isclose s 0 then .ok none
          else
            match end_val with
            | .num e => .ok (some ((e / s - 1) * 100))
            | _ => .ok none

/-- Python `str` on a numeric value (line 79).  An integer-valued input
renders as its integer literal, the only case the program's market-cap
values exercise; a non-integral rational is rendered as a fraction. -/
def py_str (q : ℚ) : String :=
  if q.den = 1 then toString q.num
  else toString q.num ++ "/" ++ toString q.den

/-- Floor of a rational as an integer, `q.num / q.den` with integer
division (rounding toward negative infinity on `Int`). -/
def rat_floor (q : ℚ) : ℤ :=
  q.num / (q.den : ℤ)

/-- Round a rational to the nearest integer, ties to even: the rounding of
Python's fixed-point float formatting. -/
def roundHalfEven (q : ℚ) : ℤ :=
  let f := rat_floor q
  if q - f < 1 / 2 then f
  else if q - f > 1 / 2 then f + 1
  else if f % 2 = 0 then f else f + 1

/-- Zero-pad a numeral below 100 to two digits. -/
def pad2 (n : ℤ) : String :=
  if n < 10 then "0" ++ toString n else toString n

/-- Python's fixed-point formatting with two decimals, the format spec
`:.2f` of lines 73, 75, 77: round to the nearest hundredth (ties to even)
and print with exactly two digits after the decimal point. -/
def fmt2 (q : ℚ) : String :=
  let n := roundHalfEven (q * 100)
  if n < 0 then "-" ++ toString (-n / 100) ++ "." ++ pad2 (-n % 100)
  else toString (n / 100) ++ "." ++ pad2 (n % 100)

/-- `format_mcap` (lines 68-79).  Pass the value through `safe_scalar`;
return `"NA"` on a missing value (`pd.isna`); otherwise compare with the
strict thresholds `1e12`, `1e9`, `1e6` in that order and return the scaled
value formatted to two decimals with suffix `" T"`, `" B"` or `" M"`, or
`str(val)` when no threshold is exceeded.  A non-numeric value passes the
`pd.isna` test (it is not NA) and then raises `TypeError` in the very first
`>` comparison, modelled by `.error ()`. -/
def format_mcap (val : PyBox) : Except Unit String :=
  match safe_scalar val with
  | .nan => .ok "NA"
  | .nonNum => .error ()
  | .num v =>
    if v > 1000000000000 then .ok (fmt2 (v / 1000000000000) ++ " T")
    else if v > 1000000000 then .ok (fmt2 (v / 1000000000) ++ " B")
    else if v > 1000000 then .ok (fmt2 (v / 1000000) ++ " M")
    else .ok (py_str v)

/-- The two chart modes of the radio control (line 21). -/
inductive ChartType where
  | relativePrice
  | actualPrice
  deriving DecidableEq

/-- Cleaning of one ticker's `Close` column in the chart loop (lines
100-104): `pd.to_numeric(series, errors="coerce")` turns non-numeric cells
into `NaN`, then `dropna` removes them, leaving the numeric cells in
order. -/
def clean (col : List PVal) : List ℚ :=
  col.filterMap fun v =>
    match v with
    | .num q => some q
    | _ => none

/-- The per-mode series transform of the chart loop (lines 109-115).  In
relative mode the base is `safe_scalar(series.iloc[[0]])`, the first cleaned
value; when it is present and not `np.isclose` to zero the series becomes
`(series / base) * 100.0`; otherwise the cleaned series is left unchanged.
In actual mode the series passes through unchanged. -/
def chart_series (ct : ChartType) (series : List ℚ) : List ℚ :=
  match ct with
  | .actualPrice => series
  | .relativePrice =>
    match series with
    | [] => []
    | b :: rest =>
      if np_isclose b 0 then b :: rest
      else (b :: rest).map fun v => v / b * 100

/-- Outcome of one iteration of the chart loop for one ticker. -/
inductive ChartOutcome where
  | plotted (ys : List ℚ)
  | skipped
  | errored
  deriving DecidableEq

/-- One iteration of the chart loop (lines 98-119) for one ticker.  On the
column-less failure frame, `df["Close"]` raises `KeyError`, which the
per-iteration `except` catches and reports with `st.error` (`errored`).
Otherwise the column is cleaned; an empty cleaned series is skipped with
`continue` and no message (`skipped`); otherwise the per-mode transform is
applied and the series is plotted. -/
def process_ticker (ct : ChartType) (df : Frame) : ChartOutcome :=
  match df with
  | none => .errored
  | some col =>
    let series := clean col
    if series.isEmpty then .skipped
    else .plotted (chart_series ct series)

/-- The whole chart loop (lines 98-119): each ticker's frame is processed
independently, one outcome per ticker. -/
def chart_loop (ct : ChartType) (dfs : List Frame) : List ChartOutcome :=
  dfs.map (process_ticker ct)

/-! ### Helper lemmas -/

/-- The floor of an integer-valued rational is that integer. -/
lemma rat_floor_intCast (n : ℤ) : rat_floor (n : ℚ) = n := by
  simp [rat_floor]

/-- Half-even rounding is the identity on integer-valued rationals. -/
lemma roundHalfEven_intCast (n : ℤ) : roundHalfEven (n : ℚ) = n := by
  rw [roundHalfEven, rat_floor_intCast]
  norm_num

/-- Evaluation lemma for `fmt2`: once `q * 100` is known to be the integer
`n`, the formatted string is determined by integer arithmetic. -/
lemma fmt2_eq_of (q : ℚ) (n : ℤ) (h : q * 100 = (n : ℚ)) :
    fmt2 q =
      if n < 0 then "-" ++ toString (-n / 100) ++ "." ++ pad2 (-n % 100)
      else toString (n / 100) ++ "." ++ pad2 (n % 100) := by
  rw [fmt2, h, roundHalfEven_intCast]

/-- A value that `np.isclose` distinguishes from zero is nonzero. -/
lemma ne_zero_of_np_isclose_false (b : ℚ) (h : np_isclose b 0 = false) :
    b ≠ 0 := by
  rintro rfl
  simp [np_isclose] at h

/-- `format_mcap` on a plain numeric scalar, unfolded to its threshold
cascade. -/
lemma format_mcap_num (v : ℚ) :
    format_mcap (.scalar (.num v)) =
      if v > 1000000000000 then .ok (fmt2 (v / 1000000000000) ++ " T")
      else if v > 1000000000 then .ok (fmt2 (v / 1000000000) ++ " B")
      else if v > 1000000 then .ok (fmt2 (v / 1000000) ++ " M")
      else .ok (py_str v) := rfl

/-- Taking the head of the slice that drops all but the last element is
taking the last element, with the same default. -/
lemma headD_drop_length_sub_one {α : Type} (d : α) :
    ∀ l : List α, (l.drop (l.length - 1)).headD d = l.getLastD d
  | [] => rfl
  | [_] => rfl
  | x :: y :: ys => by
    have ih := headD_drop_length_sub_one d (y :: ys)
    simpa [List.getLastD_cons] using ih

/-- `getLastD` commutes with `map`, with the default mapped as well. -/
lemma getLastD_map {α β : Type} (f : α → β) (a : α) :
    ∀ l : List α, (l.map f).getLastD (f a) = f (l.getLastD a)
  | [] => rfl
  | x :: xs => by
    rw [List.map_cons, List.getLastD_cons, List.getLastD_cons]
    exact getLastD_map f x xs

/-- Evaluation lemma for `compute_returns`: once the cleaned series is known
to be nonempty, the result is determined by its first and last cells. -/
lemma compute_returns_eq_of_dropna (col : List PVal) (s : PVal)
    (rest : List PVal) (h : dropna col = s :: rest) :
    compute_returns (some col) =
      match s with
      | .nan => .ok none
      | .nonNum => .error ()
      | .num q =>
        if np_isclose q 0 then .ok none
        else
          match (s :: rest).getLastD .nan with
          | .num e => .ok (some ((e / q - 1) * 100))
          | _ => .ok none := by
  have hcol : col.isEmpty = false := by
    cases col with
    | nil => simp [dropna] at h
    | cons a t => rfl
  rw [compute_returns]
  rw [hcol]
  simp only [Bool.false_eq_true, if_false, h, List.isEmpty_cons, safe_scalar,
    List.take_succ_cons, List.take_zero, List.headD_cons,
    headD_drop_length_sub_one]
  cases s <;> rfl

/-- A column whose cells survive `dropna` untouched: an all-numeric column.
-/
lemma dropna_map_num (l : List ℚ) :
    dropna (l.map PVal.num) = l.map PVal.num := by
  rw [dropna, List.filter_eq_self]
  intro a ha
  rcases List.mem_map.1 ha with ⟨q, _, rfl⟩
  rfl

/-! ### Claims about `format_mcap` -/

/-- Claim C1: `format_mcap` selects its magnitude suffix with strict `>`
comparisons against `1e12`, `1e9` and `1e6`: for every defined numeric value
`v`, if `v > 1e12` the result is `v / 1e12` formatted to two decimals with
suffix `" T"`, else if `v > 1e9` the `B` form, else if `v > 1e6` the `M`
form; in particular exactly `1e12` falls through to the billions branch and
formats as `"1000.00 B"`, `2.5e12` formats as `"2.50 T"`, `3.4e9` as
`"3.40 B"`, and `7.1e6` as `"7.10 M"`. -/
theorem format_mcap_strict_thresholds :
    (∀ v : ℚ, v > 1000000000000 →
      format_mcap (.scalar (.num v)) = .ok (fmt2 (v / 1000000000000) ++ " T")) ∧
    (∀ v : ℚ, ¬ v > 1000000000000 → v > 1000000000 →
      format_mcap (.scalar (.num v)) = .ok (fmt2 (v / 1000000000) ++ " B")) ∧
    (∀ v : ℚ, ¬ v > 1000000000000 → ¬ v > 1000000000 → v > 1000000 →
      format_mcap (.scalar (.num v)) = .ok (fmt2 (v / 1000000) ++ " M")) ∧
    format_mcap (.scalar (.num 1000000000000)) = .ok "1000.00 B" ∧
    format_mcap (.scalar (.num 2500000000000)) = .ok "2.50 T" ∧
    format_mcap (.scalar (.num 3400000000)) = .ok "3.40 B" ∧
    format_mcap (.scalar (.num 7100000)) = .ok "7.10 M" := by
  refine ⟨?_, ?_, ?_, ?_, ?_, ?_, ?_⟩
  · intro v h
    rw [format_mcap_num, if_pos h]
  · intro v h1 h2
    rw [format_mcap_num, if_neg h1, if_pos h2]
  · intro v h1 h2 h3
    rw [format_mcap_num, if_neg h1, if_neg h2, if_pos h3]
  · rw [format_mcap_num, if_neg (by norm_num), if_pos (by norm_num),
      fmt2_eq_of _ 100000 (by norm_num)]
    exact congrArg Except.ok (by decide)
  · rw [format_mcap_num, if_pos (by norm_num), fmt2_eq_of _ 250 (by norm_num)]
    exact congrArg Except.ok (by decide)
  · rw [format_mcap_num, if_neg (by norm_num), if_pos (by norm_num),
      fmt2_eq_of _ 340 (by norm_num)]
    exact congrArg Except.ok (by decide)
  · rw [format_mcap_num, if_neg (by norm_num), if_neg (by norm_num),
      if_pos (by norm_num), fmt2_eq_of _ 710 (by norm_num)]
    exact congrArg Except.ok (by decide)

/-- Witness for C1: the trillions branch applied at the concrete value
`3e12`. -/
theorem format_mcap_strict_thresholds_witness :
    format_mcap (.scalar (.num 3000000000000)) =
      .ok (fmt2 ((3000000000000 : ℚ) / 1000000000000) ++ " T") :=
  format_mcap_strict_thresholds.1 3000000000000 (by norm_num)

/-- Claim C6: for every defined numeric value not greater than `1e6`,
`format_mcap` returns the plain numeric value as a string with no suffix; in
particular the input `500000` formats as exactly the string `"500000"`. -/
theorem format_mcap_small :
    (∀ v : ℚ, v ≤ 1000000 → format_mcap (.scalar (.num v)) = .ok (py_str v)) ∧
    format_mcap (.scalar (.num 500000)) = .ok "500000" := by
  constructor
  · intro v h
    rw [format_mcap_num, if_neg (by linarith), if_neg (by linarith),
      if_neg (by linarith)]
  · rw [format_mcap_num, if_neg (by norm_num), if_neg (by norm_num),
      if_neg (by norm_num), py_str]
    norm_num
    decide

/-- Witness for C6: the plain branch applied at the concrete value `12`. -/
theorem format_mcap_small_witness :
    format_mcap (.scalar (.num 12)) = .ok (py_str 12) :=
  format_mcap_small.1 12 (by norm_num)

/-- Claim C8: for every undefined / not-a-number input value, `format_mcap`
returns the literal string `"NA"`: this holds for a scalar NA, for an empty
array-like value (whose `safe_scalar` extraction is `np.nan`), and for an
array-like value whose first element is NA. -/
theorem format_mcap_na :
    format_mcap (.scalar .nan) = .ok "NA" ∧
    format_mcap (.arr []) = .ok "NA" ∧
    (∀ l : List PVal, format_mcap (.arr (.nan :: l)) = .ok "NA") :=
  ⟨rfl, rfl, fun _ => rfl⟩

/-- Claim C10: for every defined negative numeric value `v`, `format_mcap`
returns the plain string of `v` with no magnitude suffix, because all three
threshold comparisons are strict `>` against positive bounds; in particular
`-2e12` is rendered as its plain numeric string, never as a negative
trillions figure. -/
theorem format_mcap_negative :
    (∀ v : ℚ, v < 0 → format_mcap (.scalar (.num v)) = .ok (py_str v)) ∧
    format_mcap (.scalar (.num (-2000000000000))) = .ok "-2000000000000" := by
  constructor
  · intro v h
    rw [format_mcap_num, if_neg (by linarith), if_neg (by linarith),
      if_neg (by linarith)]
  · rw [format_mcap_num, if_neg (by norm_num), if_neg (by norm_num),
      if_neg (by norm_num), py_str]
    norm_num
    decide

/-- Witness for C10: the plain branch applied at the concrete value `-7`. -/
theorem format_mcap_negative_witness :
    format_mcap (.scalar (.num (-7))) = .ok (py_str (-7)) :=
  format_mcap_negative.1 (-7) (by norm_num)

/-- `compute_returns` on a column whose cells all get dropped. -/
lemma compute_returns_dropna_nil (col : List PVal) (h : dropna col = []) :
    compute_returns (some col) = .ok none := by
  cases col with
  | nil => rfl
  | cons a t =>
    rw [compute_returns]
    simp only [List.isEmpty_cons, Bool.false_eq_true, if_false, h,
      List.isEmpty_nil, if_true]

/-- `compute_returns` when the first surviving cell is missing (vacuous for
`dropna` output, but the short-circuit `pd.notna` guard handles it). -/
lemma compute_returns_dropna_nan (col : List PVal) (rest : List PVal)
    (h : dropna col = .nan :: rest) :
    compute_returns (some col) = .ok none := by
  rw [compute_returns_eq_of_dropna col .nan rest h]

/-- `compute_returns` when the first surviving cell is non-numeric: the
`np.isclose` zero test raises before the `try` block. -/
lemma compute_returns_dropna_nonNum (col : List PVal) (rest : List PVal)
    (h : dropna col = .nonNum :: rest) :
    compute_returns (some col) = .error () := by
  rw [compute_returns_eq_of_dropna col .nonNum rest h]

/-- `compute_returns` when the first surviving cell is the number `q`. -/
lemma compute_returns_dropna_num (col : List PVal) (q : ℚ) (rest : List PVal)
    (h : dropna col = .num q :: rest) :
    compute_returns (some col) =
      if np_isclose q 0 then .ok none
      else
        match (PVal.num q :: rest).getLastD .nan with
        | .num e => .ok (some ((e / q - 1) * 100))
        | _ => .ok none := by
  rw [compute_returns_eq_of_dropna col (.num q) rest h]

/-! ### Claims about `compute_returns` -/

/-- Claim C2: for every price series whose closing values, after dropping
missing observations, are non-empty and whose first remaining value is
defined and not within the `np.isclose` tolerance of zero, `compute_returns`
returns `(end / start - 1) * 100` where `start` is the first and `end` the
last remaining closing value; in particular the series `[100, 110]` yields
`10` and `[100, 90]` yields `-10`. -/
theorem compute_returns_formula :
    (∀ (col : List PVal) (s : ℚ) (rest : List ℚ),
      dropna col = (s :: rest).map PVal.num →
      np_isclose s 0 = false →
      compute_returns (some col) = .ok (some ((rest.getLastD s / s - 1) * 100))) ∧
    compute_returns (some [PVal.num 100, PVal.num 110]) = .ok (some 10) ∧
    compute_returns (some [PVal.num 100, PVal.num 90]) = .ok (some (-10)) := by
  have main : ∀ (col : List PVal) (s : ℚ) (rest : List ℚ),
      dropna col = (s :: rest).map PVal.num →
      np_isclose s 0 = false →
      compute_returns (some col) = .ok (some ((rest.getLastD s / s - 1) * 100)) := by
    intro col s rest hdrop hs
    rw [List.map_cons] at hdrop
    rw [compute_returns_dropna_num col s (rest.map PVal.num) hdrop, hs]
    simp only [Bool.false_eq_true, if_false, List.getLastD_cons, getLastD_map]
  refine ⟨main, ?_, ?_⟩
  · have h := main [PVal.num 100, PVal.num 110] 100 [110] rfl
      (by rw [np_isclose]; norm_num)
    rw [h]
    norm_num
  · have h := main [PVal.num 100, PVal.num 90] 100 [90] rfl
      (by rw [np_isclose]; norm_num)
    rw [h]
    norm_num

/-- Witness for C2: the general formula applied at the concrete series
`[100, 110]`. -/
theorem compute_returns_formula_witness :
    compute_returns (some [PVal.num 100, PVal.num 110]) =
      .ok (some (([110].getLastD 100 / 100 - 1) * 100)) :=
  compute_returns_formula.1 [PVal.num 100, PVal.num 110] 100 [110] rfl
    (by rw [np_isclose]; norm_num)

/-- Claim C3: `compute_returns` returns the undefined sentinel whenever the
input table is empty (both the column-less failure frame and a frame with no
rows), or the closing series after dropping missing observations is empty,
or the first remaining value is within the `np.isclose` tolerance
(`1e-8`) of zero; in each case the result is a normal return (no exception,
so the division is never executed); in particular `[0, 50]` and the empty
series both yield the sentinel. -/
theorem compute_returns_undefined :
    compute_returns none = .ok none ∧
    compute_returns (some []) = .ok none ∧
    (∀ col : List PVal, dropna col = [] → compute_returns (some col) = .ok none) ∧
    (∀ (col : List PVal) (s : ℚ) (rest : List PVal),
      dropna col = PVal.num s :: rest → np_isclose s 0 = true →
      compute_returns (some col) = .ok none) ∧
    compute_returns (some [PVal.num 0, PVal.num 50]) = .ok none := by
  have hzero : ∀ (col : List PVal) (s : ℚ) (rest : List PVal),
      dropna col = PVal.num s :: rest → np_isclose s 0 = true →
      compute_returns (some col) = .ok none := by
    intro col s rest hdrop hs
    rw [compute_returns_dropna_num col s rest hdrop, hs, if_pos rfl]
  refine ⟨rfl, rfl, compute_returns_dropna_nil, hzero, ?_⟩
  exact hzero [PVal.num 0, PVal.num 50] 0 [PVal.num 50] rfl
    (by rw [np_isclose]; norm_num)

/-- Witness for C3: the dropna-empty case applied at the concrete all-NA
series `[nan]`. -/
theorem compute_returns_undefined_witness :
    compute_returns (some [PVal.nan]) = .ok none :=
  compute_returns_undefined.2.2.1 [PVal.nan] rfl

/-- Counterexample to claim C4 as stated: on the series whose first
non-missing cell is non-numeric, `compute_returns` propagates the
`TypeError` raised by `np.isclose` (which sits before the `try` block)
instead of returning the undefined sentinel. -/
theorem compute_returns_exception_counterexample :
    compute_returns (some [PVal.nonNum, PVal.num 50]) = .error () :=
  compute_returns_dropna_nonNum [PVal.nonNum, PVal.num 50] [PVal.num 50] rfl

/-- Claim C4 (amended): an arithmetic failure inside the division expression
itself — a non-numeric last remaining value — is caught by the `try/except`
and mapped to the undefined sentinel, and `compute_returns` raises if and
only if the first remaining value after dropping missing observations is
non-numeric: the `np.isclose` zero test on it sits before the `try` block,
so there a `TypeError` propagates to the caller. -/
theorem compute_returns_exception_characterization :
    (∀ df : Frame, compute_returns df = .error () ↔
      ∃ (col : List PVal) (rest : List PVal),
        df = some col ∧ dropna col = PVal.nonNum :: rest) ∧
    (∀ (col : List PVal) (s : ℚ) (rest : List PVal),
      dropna col = PVal.num s :: (rest ++ [PVal.nonNum]) →
      np_isclose s 0 = false →
      compute_returns (some col) = .ok none) := by
  constructor
  · intro df
    constructor
    · intro herr
      match df with
      | none => exact absurd herr (by rw [compute_returns]; simp)
      | some col =>
        rcases hdrop : dropna col with _ | ⟨head, rest⟩
        · rw [compute_returns_dropna_nil col hdrop] at herr
          exact Except.noConfusion herr
        · cases head with
          | nonNum => exact ⟨col, rest, rfl, hdrop⟩
          | nan =>
            rw [compute_returns_dropna_nan col rest hdrop] at herr
            exact Except.noConfusion herr
          | num q =>
            exfalso
            rw [compute_returns_dropna_num col q rest hdrop] at herr
            by_cases hq : np_isclose q 0 = true
            · rw [hq, if_pos rfl] at herr
              exact Except.noConfusion herr
            · rw [Bool.not_eq_true] at hq
              rw [hq] at herr
              simp only [Bool.false_eq_true, if_false] at herr
              cases hlast : (PVal.num q :: rest).getLastD PVal.nan <;>
                rw [hlast] at herr <;> exact Except.noConfusion herr
    · rintro ⟨col, rest, rfl, hdrop⟩
      exact compute_returns_dropna_nonNum col rest hdrop
  · intro col s rest hdrop hs
    rw [compute_returns_dropna_num col s (rest ++ [PVal.nonNum]) hdrop, hs]
    simp only [Bool.false_eq_true, if_false, List.getLastD_cons,
      List.getLastD_concat]

/-- Witness for C4 (amended): contamination of the last cell is caught and
mapped to the sentinel on the concrete series `[100, nonNum]`. -/
theorem compute_returns_exception_characterization_witness :
    compute_returns (some [PVal.num 100, PVal.nonNum]) = .ok none :=
  compute_returns_exception_characterization.2 [PVal.num 100, PVal.nonNum]
    100 [] rfl (by rw [np_isclose]; norm_num)

/-! ### Claims about the chart loop -/

/-- Claim C5: the chart-series transform in relative mode takes the first
cleaned value as base and, when the base is not within the `np.isclose`
tolerance of zero, maps every value `v` of the cleaned series to
`(v / base) * 100`, so the series starts at `100` (`[50, 75, 100]` becomes
`[100, 150, 200]`); when the base is numerically zero it leaves the series
as the raw cleaned values unchanged, a silent fallback rather than a
division-by-zero failure. -/
theorem chart_series_relative_spec :
    (∀ (b : ℚ) (rest : List ℚ), np_isclose b 0 = false →
      chart_series .relativePrice (b :: rest) =
        (b :: rest).map (fun v => v / b * 100) ∧
      (chart_series .relativePrice (b :: rest)).headD 0 = 100) ∧
    (∀ (b : ℚ) (rest : List ℚ), np_isclose b 0 = true →
      chart_series .relativePrice (b :: rest) = b :: rest) ∧
    chart_series .relativePrice [50, 75, 100] = [100, 150, 200] ∧
    chart_series .relativePrice [0, 5, 7] = [0, 5, 7] := by
  have hrel : ∀ (b : ℚ) (rest : List ℚ), np_isclose b 0 = false →
      chart_series .relativePrice (b :: rest) =
        (b :: rest).map fun v => v / b * 100 := by
    intro b rest hb
    rw [chart_series]
    simp only [hb, Bool.false_eq_true, if_false]
  refine ⟨?_, ?_, ?_, ?_⟩
  · intro b rest hb
    refine ⟨hrel b rest hb, ?_⟩
    rw [hrel b rest hb, List.map_cons, List.headD_cons,
      div_self (ne_zero_of_np_isclose_false b hb)]
    norm_num
  · intro b rest hb
    rw [chart_series]
    simp only [hb, if_true]
  · rw [hrel 50 [75, 100] (by rw [np_isclose]; norm_num)]
    norm_num
  · rw [chart_series]
    norm_num [np_isclose]

/-- Witness for C5: the rescaling branch applied at the concrete series
`[50, 75, 100]`. -/
theorem chart_series_relative_spec_witness :
    chart_series .relativePrice [50, 75, 100] =
      ([50, 75, 100] : List ℚ).map (fun v => v / 50 * 100) :=
  (chart_series_relative_spec.1 50 [75, 100] (by rw [np_isclose]; norm_num)).1

/-- Claim C9: the chart-series transform in actual mode is the identity on
the cleaned series: every cleaned value passes through unchanged, so
`[50, 75, 100]` is plotted as `[50, 75, 100]`. -/
theorem chart_series_actual_spec :
    (∀ series : List ℚ, chart_series .actualPrice series = series) ∧
    chart_series .actualPrice [50, 75, 100] = [50, 75, 100] :=
  ⟨fun _ => rfl, rfl⟩

/-- Claim C7: each ticker's chart series is processed independently of the
others: a ticker whose cleaned series is empty is silently skipped, a
failure while building one ticker's series (the column-less failure frame)
is caught inside the per-ticker loop and reported as a per-series error
outcome, and in both cases every other ticker in the loop — before or after
the affected one — still gets exactly its own outcome. -/
theorem chart_loop_isolation :
    (∀ (ct : ChartType) (col : List PVal), clean col = [] →
      process_ticker ct (some col) = .skipped) ∧
    (∀ ct : ChartType, process_ticker ct none = .errored) ∧
    (∀ (ct : ChartType) (pre post : List Frame) (df : Frame),
      chart_loop ct (pre ++ df :: post) =
        chart_loop ct pre ++ process_ticker ct df :: chart_loop ct post) := by
  refine ⟨?_, fun _ => rfl, ?_⟩
  · intro ct col hclean
    rw [process_ticker]
    simp only [hclean, List.isEmpty_nil, if_true]
  · intro ct pre post df
    rw [chart_loop, List.map_append, List.map_cons]
    rfl

/-- Witness for C7: a ticker whose fetched cells are all missing or
non-numeric is skipped. -/
theorem chart_loop_isolation_witness :
    process_ticker .actualPrice (some [PVal.nan, PVal.nonNum]) = .skipped :=
  chart_loop_isolation.1 .actualPrice [PVal.nan, PVal.nonNum] rfl

end EquityComparision
